import Mathlib

/-!
Verification of the `create-shiny-react-app` scaffolding CLI.

The repository ships three variants of the CLI script:
* variant `V1` (ES module, two backends `r`/`py`, side-file `package-custom.json`),
* variant `V2` (CommonJS, three backends `r`/`py`/`both`, side-file `package-config.json`),
* variant `V3` (CommonJS, three backends, build scripts computed inline, no side-file).

This file shallowly embeds the pure core of each variant.  Modelling
conventions, each noted again at the definition it concerns:

* The filesystem is a finite tree `FSTree`; directory entries are
  `(name, subtree)` pairs in `readdir` order.
* The content of a file is modelled up to JSON-parseability by `FData`:
  `FData.json v` stands for a file whose text is valid JSON parsing to `v`,
  `FData.text s` for a file whose text `s` is not valid JSON.
  `JSON.parse` therefore becomes the total function `parseJSON`.
* JavaScript numbers appear only through `parseInt`, modelled as
  `Option Int` (`none` = `NaN`); the `<`/`>=` comparisons of the scripts
  are modelled with the JS convention that every comparison with `NaN`
  is false.
* Thrown-and-propagated exceptions are `Except.error`; `process.exit(1)`
  sites are distinguished constructors of `MainOutcome`.
-/

/-- JSON values, as produced by `JSON.parse`.  Object fields are kept in
insertion order, as JavaScript does for string keys. -/
inductive JValue where
  | str (s : String)
  | num (n : Int)
  | bool (b : Bool)
  | null
  | arr (xs : List JValue)
  | obj (fields : List (String × JValue))
deriving Repr

/-- File content, modelled up to JSON-parseability: `json v` is a file whose
text parses to `v`; `text s` is a file whose text is not valid JSON. -/
inductive FData where
  | json (v : JValue)
  | text (s : String)
deriving Repr

/-- A filesystem tree: a file with content, or a directory whose children are
`(entry name, subtree)` pairs listed in `readdir` order. -/
inductive FSTree where
  | file (data : FData)
  | dir (children : List (String × FSTree))
deriving Repr

/-- `JSON.parse` on a file's content (total, thanks to the `FData` quotient):
`none` models the `SyntaxError` throw. -/
def parseJSON : FData → Option JValue
  | .json v => some v
  | .text _ => none

def FSTree.isDir : FSTree → Bool
  | .file _ => false
  | .dir _ => true

/-- Look up a directory entry by name (first match, as in a real directory
where names are unique). -/
def lookupEntry (n : String) : List (String × FSTree) → Option FSTree
  | [] => none
  | (m, t) :: rest => if m = n then some t else lookupEntry n rest

/-- `fs.writeFileSync` into a directory: replace the entry in place or append
a fresh one. -/
def setEntryList (cs : List (String × FSTree)) (n : String) (t : FSTree) :
    List (String × FSTree) :=
  match cs with
  | [] => [(n, t)]
  | (m, u) :: rest =>
    if m = n then (m, t) :: rest else (m, u) :: setEntryList rest n t

/-- `fs.unlinkSync`: remove the entry named `n`. -/
def removeEntry (cs : List (String × FSTree)) (n : String) :
    List (String × FSTree) :=
  cs.filter (fun p => p.1 ≠ n)

/-- Object field lookup (first match; `JSON.parse` never yields duplicate
keys). -/
def lookupField (k : String) : List (String × JValue) → Option JValue
  | [] => none
  | (m, v) :: rest => if m = k then some v else lookupField k rest

/-- JS property assignment `o[k] = v` on an object: overwrite in place keeping
field order, or append a new field.  Mirrors V8 insertion-order semantics. -/
def setFieldList (fs : List (String × JValue)) (k : String) (v : JValue) :
    List (String × JValue) :=
  match fs with
  | [] => [(k, v)]
  | (m, w) :: rest =>
    if m = k then (m, v) :: rest else (m, w) :: setFieldList rest k v

/-- JS truthiness of a JSON value (`if (x)`): `null`, `false`, `0` and `""`
are falsy, everything else truthy. -/
def jsTruthy : JValue → Bool
  | .null => false
  | .bool b => b
  | .num n => n != 0
  | .str s => s ≠ ""
  | .arr _ => true
  | .obj _ => true

/-- JS member read `v[k]` where it cannot throw in the embedded scripts
(the receiver was truthiness-checked): `none` models `undefined`.
Strings and arrays expose their index properties. -/
def lookupJ (v : JValue) (k : String) : Option JValue :=
  match v with
  | .obj fs => lookupField k fs
  | .str s =>
    match k.toNat? with
    | some i => (s.toList.get? i).map (fun c => .str (String.singleton c))
    | none => none
  | .arr xs =>
    match k.toNat? with
    | some i => xs.get? i
    | none => none
  | _ => none

/-- JS member read `v[k]` where the receiver may be `null` (a `TypeError`
throw, modelled as `Except.error`). -/
def jsMember (v : JValue) (k : String) : Except Unit (Option JValue) :=
  match v with
  | .null => .error ()
  | _ => .ok (lookupJ v k)

/-- JS property assignment `o[k] = v` in sloppy mode: a no-op on non-object
receivers (primitives silently ignore it; the `null` throw is handled by the
callers that can reach it). -/
def assignField (o : JValue) (k : String) (v : JValue) : JValue :=
  match o with
  | .obj fs => .obj (setFieldList fs k v)
  | other => other

/-- The own enumerable string-keyed properties of a value, as enumerated by
both object spread `{...v}` and `Object.keys(v)`: an object's fields, a
string's or array's index properties, nothing for other primitives. -/
def spreadPairs : JValue → List (String × JValue)
  | .obj fs => fs
  | .str s => s.toList.enum.map (fun p => (toString p.1, JValue.str (String.singleton p.2)))
  | .arr xs => xs.enum.map (fun p => (toString p.1, p.2))
  | _ => []

/-- The object literal `{...a, ...b}`: later spreads win, field order is
first-occurrence order.  `a` is `Option` because the scripts spread
`packageJson[key]`, which may be `undefined`; `undefined` (like `null`)
contributes no properties. -/
def spreadMerge (a : Option JValue) (b : JValue) : JValue :=
  .obj (((match a with | some v => spreadPairs v | none => []) ++ spreadPairs b).foldl
    (fun acc p => setFieldList acc p.1 p.2) [])

/-- The `Object.keys(backendConfig).forEach` merge loop shared by V1 and V2:
for every own key `k` of `bc` not in `excl`,
`packageJson[k] = { ...packageJson[k], ...bc[k] }`.
V1 passes `excl = []`, V2 passes `excl = ["scripts"]`. -/
def foldAssign (excl : List String) (pairs : List (String × JValue)) (pj : JValue) : JValue :=
  pairs.foldl
    (fun acc p =>
      if excl.contains p.1 then acc
      else assignField acc p.1 (spreadMerge (lookupJ acc p.1) p.2))
    pj

/-- The static skip-list of build artifacts shared by V1 and V2
(`part_001` line 120, `part_002` line 19). -/
def SKIP_PATHS : List String := ["node_modules", "www", "__pycache__", ".DS_Store"]

mutual
/-- `copyRecursive(src, dest, { skipBackends })` of V1/V2 on a fresh
destination, as the pure copied tree: directories recurse, files are copied
byte-for-byte.  `part_001` lines 199-233, `part_002` lines 72-106. -/
def copyRecursive (skipBackends : List String) : FSTree → FSTree
  | .file d => .file d
  | .dir cs => .dir (copyChildren skipBackends cs)

/-- The `files.forEach` body of `copyRecursive`: an entry named in
`SKIP_PATHS` or in `skipBackends` is skipped, every other entry is copied
recursively (the options object is passed down, so the filters apply at
every depth). -/
def copyChildren (skipBackends : List String) : List (String × FSTree) → List (String × FSTree)
  | [] => []
  | (n, t) :: rest =>
    if SKIP_PATHS.contains n || skipBackends.contains n then copyChildren skipBackends rest
    else (n, copyRecursive skipBackends t) :: copyChildren skipBackends rest
end

mutual
/-- Whether the tree contains an entry named `n` at any depth. -/
def containsEntry (n : String) : FSTree → Bool
  | .file _ => false
  | .dir cs => containsChildren n cs

def containsChildren (n : String) : List (String × FSTree) → Bool
  | [] => false
  | (m, t) :: rest => m == n || containsEntry n t || containsChildren n rest
end

/-- The `skipBackends` list computed in `main` from the selected backend id
(`part_001` lines 388-394, `part_002` lines 254-261, `part_003` lines
324-331): `r` skips `py`, `py` skips `r`, anything else (`both`) skips
nothing. -/
def skipBackendsFor (backendId : String) : List String :=
  if backendId = "r" then ["py"]
  else if backendId = "py" then ["r"]
  else []

mutual
/-- `copyRecursive(src, dest, { skipBackends })` of `part_003` (lines
70-104): identical in shape to the V1/V2 materializer, but this variant has
no `SKIP_PATHS` list — its inline skip test names only `node_modules` and
`www` (`file === "node_modules" || file === "www"`, line 88), so
`__pycache__` and `.DS_Store` entries present in the source are copied. -/
def V3.copyRecursive (skipBackends : List String) : FSTree → FSTree
  | .file d => .file d
  | .dir cs => .dir (V3.copyChildren skipBackends cs)

/-- The `files.forEach` body of `part_003`'s `copyRecursive`: skip
`node_modules` and `www`, then the backend directories, copy the rest
recursively (the options object is passed down, so the filters apply at
every depth). -/
def V3.copyChildren (skipBackends : List String) :
    List (String × FSTree) → List (String × FSTree)
  | [] => []
  | (n, t) :: rest =>
    if n = "node_modules" ∨ n = "www" then V3.copyChildren skipBackends rest
    else if skipBackends.contains n then V3.copyChildren skipBackends rest
    else (n, V3.copyRecursive skipBackends t) :: V3.copyChildren skipBackends rest
end

/-- A discovered template descriptor (`templates.push({id, name, description})`
in `getAvailableTemplates`). The description is kept as the raw JSON value the
script stores. -/
structure TemplateInfo where
  id : String
  name : String
  description : JValue
deriving Repr

/-- `String.prototype.split` with a one-character separator, on the
character list (`"a-b"` gives `["a","b"]`, `"a--b"` gives `["a","","b"]`,
`""` gives `[""]`, like JavaScript). -/
def splitChar (sep : Char) : List Char → List (List Char)
  | [] => [[]]
  | c :: rest =>
    let r := splitChar sep rest
    if c = sep then [] :: r
    else
      match r with
      | [] => [[c]]
      | g :: gs => (c :: g) :: gs

/-- `part.charAt(0).toUpperCase() + part.slice(1)` (title-casing of one
hyphen-separated word; the template ids are ASCII, where `Char.toUpper`
agrees with `toUpperCase`). -/
def titleCaseWord (w : String) : String :=
  match w.toList with
  | [] => ""
  | c :: rest => String.mk (c.toUpper :: rest)

/-- The display-name derivation of `getAvailableTemplates`
(`part_001` lines 176-182): `entry.split("-").slice(1)`, title-case the
remaining words and join with spaces; if there is no hyphen the id is kept
unchanged. -/
def deriveName (entry : String) : String :=
  let nameParts := ((splitChar '-' entry.toList).map (fun l => String.mk l)).drop 1
  if nameParts.isEmpty then entry
  else " ".intercalate (nameParts.map titleCaseWord)

/-- Read and parse the per-template metadata file `package.json`
(`part_001` lines 167-172): `none` when the file is missing, is a directory
(the `readFileSync` throw is inside the `try`), or does not parse. -/
def readTemplateMeta : FSTree → Option JValue
  | .file _ => none
  | .dir cs =>
    match lookupEntry "package.json" cs with
    | some (.file fd) => parseJSON fd
    | _ => none

/-- The descriptor built for one surviving directory entry
(`part_001` lines 163-192).  On a metadata read/parse failure — including the
`TypeError` thrown by `packageJson.description` when the metadata is JSON
`null`, which the same `catch` swallows — the defaults
(`name = entry`, `description = "Shiny-React template"`) are kept. -/
def describeTemplate (entry : String) (t : FSTree) : TemplateInfo :=
  match readTemplateMeta t with
  | some pj =>
    match jsMember pj "description" with
    | .error _ => { id := entry, name := entry, description := .str "Shiny-React template" }
    | .ok descOpt =>
      let description : JValue :=
        match descOpt with
        | some v => if jsTruthy v then v else .str "Shiny-React template"
        | none => .str "Shiny-React template"
      { id := entry, name := deriveName entry, description := description }
  | none => { id := entry, name := entry, description := .str "Shiny-React template" }

/-- `getAvailableTemplates(templatesDir)` of V1/V2 (`part_001` lines 148-197,
`part_002` lines 22-70), given the children of the templates root in
`readdir` order: keep directories not in the skip-list, build a descriptor
for each, and sort by `a.id.localeCompare(b.id)` — modelled as the
lexicographic order on strings, which agrees with `localeCompare` on the
ASCII ids used for template directories. -/
def getAvailableTemplates (entries : List (String × FSTree)) : List TemplateInfo :=
  ((entries.filter (fun p => p.2.isDir && !SKIP_PATHS.contains p.1)).map
    (fun p => describeTemplate p.1 p.2)).insertionSort (fun a b => a.id ≤ b.id)

/-- JavaScript `parseInt(s)` (radix unspecified): skip leading whitespace,
optional sign, `0x`/`0X` switches to base 16, parse the longest digit prefix
and ignore the rest; `none` models `NaN` (no digits at all). -/
def parseIntJS (s : String) : Option Int :=
  let cs := s.toList.dropWhile Char.isWhitespace
  let core : List Char → Option Nat := fun l =>
    match l with
    | '0' :: c :: rest =>
      if c = 'x' || c = 'X' then
        let ds := rest.takeWhile (fun d => d.isDigit || ('a' ≤ d && d ≤ 'f') || ('A' ≤ d && d ≤ 'F'))
        if ds.isEmpty then none
        else some (ds.foldl (fun n d =>
          16 * n + (if d.isDigit then d.toNat - '0'.toNat
                    else if 'a' ≤ d then d.toNat - 'a'.toNat + 10
                    else d.toNat - 'A'.toNat + 10)) 0)
      else
        let ds := l.takeWhile Char.isDigit
        if ds.isEmpty then none
        else some (ds.foldl (fun n d => 10 * n + (d.toNat - '0'.toNat)) 0)
    | _ =>
      let ds := l.takeWhile Char.isDigit
      if ds.isEmpty then none
      else some (ds.foldl (fun n d => 10 * n + (d.toNat - '0'.toNat)) 0)
  match cs with
  | '+' :: rest => (core rest).map Int.ofNat
  | '-' :: rest => (core rest).map (fun n => -(Int.ofNat n))
  | _ => (core cs).map Int.ofNat

/-- JS `a || b` for the prompt strings: the empty string is falsy. -/
def jsOr (a b : String) : String :=
  if a = "" then b else a

/-- JS `idx < 0` where `idx` may be `NaN` (`none`): comparisons with `NaN`
are false. -/
def jsLtZero : Option Int → Bool
  | none => false
  | some i => i < 0

/-- JS `idx >= len` where `idx` may be `NaN`: comparisons with `NaN` are
false. -/
def jsGeLen (o : Option Int) (len : Nat) : Bool :=
  match o with
  | none => false
  | some i => i ≥ (len : Int)

/-- JS array indexing `options[idx]`: `none` models `undefined`
(out-of-range or `NaN` index). -/
def jsIndex {α : Type} (options : List α) : Option Int → Option α
  | none => none
  | some i => if i < 0 then none else options.get? i.toNat

/-- Outcome of one numbered prompt. -/
inductive ChoiceOutcome (α : Type) where
  | invalidExit
  | undefinedThrow
  | ok (a : α)
deriving Repr

/-- The template/backend prompt logic shared by all variants
(`part_001` lines 350-364 and 374-386): apply the `|| default` fallback,
`parseInt(...) - 1`, exit on an out-of-range index, otherwise index the
option list — an index of `NaN` passes the range check (both comparisons
are false) and yields `undefined`, whose later `.id` access throws. -/
def chooseIndexed {α : Type} (options : List α) (raw : String) (dflt : String) :
    ChoiceOutcome α :=
  let idx : Option Int := (parseIntJS (jsOr raw dflt)).map (fun i => i - 1)
  if jsLtZero idx || jsGeLen idx options.length then .invalidExit
  else
    match jsIndex options idx with
    | some a => .ok a
    | none => .undefinedThrow

/-- A backend option. -/
structure Backend where
  id : String
  name : String
deriving Repr

namespace V1

/-- The two-backend option set of `part_001` (lines 114-118). -/
def BACKENDS : List Backend :=
  [{ id := "r", name := "R (Shiny for R)" },
   { id := "py", name := "Python (Shiny for Python)" }]

/-- `updatePackageJson(targetDir, appName, selectedBackend)` of `part_001`
(lines 235-271), as a transformation of the target directory tree.
`Except.error` models an exception propagating to `main`'s catch-all:
an unparseable manifest, a manifest that is a directory, or a manifest whose
JSON is not an object (the script is an ES module, hence strict mode, where
`packageJson.name = appName` on a primitive throws a `TypeError`).
Inside the `try`, a side-file read/parse failure or a `null` side-file is
caught and downgraded to a warning; the `fs.unlinkSync(packageCustomPath)`
sits at the end of the same `try`, so it runs only when parsing and applying
succeeded. -/
def updatePackageJson (target : FSTree) (appName selectedBackend : String) :
    Except Unit FSTree :=
  match target with
  | .file _ => .ok target
  | .dir cs =>
    match lookupEntry "package.json" cs with
    | none => .ok target
    | some (.dir _) => .error ()
    | some (.file fd) =>
      match parseJSON fd with
      | none => .error ()
      | some pj =>
        match pj with
        | .obj _ =>
          let pj1 := assignField pj "name" (.str appName)
          let write := fun (cs' : List (String × FSTree)) (v : JValue) =>
            FSTree.dir (setEntryList cs' "package.json" (.file (.json v)))
          match lookupEntry "package-custom.json" cs with
          | none => .ok (write cs pj1)
          | some (.dir _) => .ok (write cs pj1)
          | some (.file sfd) =>
            match parseJSON sfd with
            | none => .ok (write cs pj1)
            | some packageConfig =>
              match jsMember packageConfig selectedBackend with
              | .error _ => .ok (write cs pj1)
              | .ok backendConfig =>
                let pj2 :=
                  match backendConfig with
                  | some bc =>
                    if jsTruthy bc then foldAssign [] (spreadPairs bc) pj1 else pj1
                  | none => pj1
                .ok (write (removeEntry cs "package-custom.json") pj2)
        | _ => .error ()

end V1

namespace V2

/-- The three-backend option set of `part_002` (lines 13-17). -/
def BACKENDS : List Backend :=
  [{ id := "r", name := "R (Shiny for R)" },
   { id := "py", name := "Python (Shiny for Python)" },
   { id := "both", name := "Both R and Python" }]

/-- `updatePackageJson(targetDir, appName, selectedBackend)` of `part_002`
(lines 108-149).  Differences from V1: the side-file is `package-config.json`; a
truthy `backendConfig.scripts` replaces `packageJson.scripts` wholesale and
the merge loop skips the `scripts` key; the script is CommonJS (sloppy
mode), so assignments to a primitive manifest are silent no-ops — only a
JSON-`null` manifest throws (`null.name = ...` is a `TypeError` in any
mode). -/
def updatePackageJson (target : FSTree) (appName selectedBackend : String) :
    Except Unit FSTree :=
  match target with
  | .file _ => .ok target
  | .dir cs =>
    match lookupEntry "package.json" cs with
    | none => .ok target
    | some (.dir _) => .error ()
    | some (.file fd) =>
      match parseJSON fd with
      | none => .error ()
      | some pj =>
        match pj with
        | .null => .error ()
        | _ =>
          let pj1 := assignField pj "name" (.str appName)
          let write := fun (cs' : List (String × FSTree)) (v : JValue) =>
            FSTree.dir (setEntryList cs' "package.json" (.file (.json v)))
          match lookupEntry "package-config.json" cs with
          | none => .ok (write cs pj1)
          | some (.dir _) => .ok (write cs pj1)
          | some (.file sfd) =>
            match parseJSON sfd with
            | none => .ok (write cs pj1)
            | some packageConfig =>
              match jsMember packageConfig selectedBackend with
              | .error _ => .ok (write cs pj1)
              | .ok backendConfig =>
                let pj2 :=
                  match backendConfig with
                  | some bc =>
                    if jsTruthy bc then
                      let pjScripts :=
                        match lookupJ bc "scripts" with
                        | some s => if jsTruthy s then assignField pj1 "scripts" s else pj1
                        | none => pj1
                      foldAssign ["scripts"] (spreadPairs bc) pjScripts
                    else pj1
                  | none => pj1
                .ok (write (removeEntry cs "package-config.json") pj2)

end V2

namespace V3

/-- The inline build-script table of `part_003` (lines 118-147), keyed by the
selected backend id; the object literal is built in the source's assignment
order.  An unknown id leaves the initial `const scripts = {}`. -/
def scriptsFor (selectedBackend : String) : JValue :=
  if selectedBackend = "r" then
    .obj
      [("build", .str "esbuild srcts/main.tsx --bundle --outfile=r/www/main.js --format=esm --minify --alias:react=react && tsc --noEmit"),
       ("watch", .str "concurrently \"esbuild srcts/main.tsx --bundle --outfile=r/www/main.js --format=esm --minify --alias:react=react --watch\" \"tsc --noEmit --watch\""),
       ("clean", .str "rm -rf r/www")]
  else if selectedBackend = "py" then
    .obj
      [("build", .str "esbuild srcts/main.tsx --bundle --outfile=py/www/main.js --format=esm --minify --alias:react=react && tsc --noEmit"),
       ("watch", .str "concurrently \"esbuild srcts/main.tsx --bundle --outfile=py/www/main.js --format=esm --minify --alias:react=react --watch\" \"tsc --noEmit --watch\""),
       ("clean", .str "rm -rf py/www")]
  else if selectedBackend = "both" then
    .obj
      [("build", .str "concurrently \"npm run build-r\" \"npm run build-py\" \"tsc --noEmit\""),
       ("watch", .str "concurrently \"npm run watch-r\" \"npm run watch-py\" \"tsc --noEmit --watch\""),
       ("build-r", .str "esbuild srcts/main.tsx --bundle --outfile=r/www/main.js --format=esm --minify --alias:react=react"),
       ("watch-r", .str "esbuild srcts/main.tsx --bundle --outfile=r/www/main.js --format=esm --minify --alias:react=react --watch"),
       ("build-py", .str "esbuild srcts/main.tsx --bundle --outfile=py/www/main.js --format=esm --minify --alias:react=react"),
       ("watch-py", .str "esbuild srcts/main.tsx --bundle --outfile=py/www/main.js --format=esm --minify --alias:react=react --watch"),
       ("clean", .str "rm -rf r/www py/www")]
  else .obj []

/-- `updatePackageJson(targetDir, appName, selectedBackend)` of `part_003`
(lines 106-153): no side-file; sets `name`, `version`, upgrades the
`@posit/shiny-react` dependency when both `packageJson.dependencies` and its
entry are truthy, and overwrites `scripts` with the inline table.  CommonJS
sloppy mode: assignments to primitive manifests are silent no-ops; reading
`.dependencies` of a JSON-`null` manifest throws. -/
def updatePackageJson (target : FSTree) (appName selectedBackend : String) :
    Except Unit FSTree :=
  match target with
  | .file _ => .ok target
  | .dir cs =>
    match lookupEntry "package.json" cs with
    | none => .ok target
    | some (.dir _) => .error ()
    | some (.file fd) =>
      match parseJSON fd with
      | none => .error ()
      | some pj =>
        let pj1 := assignField pj "name" (.str appName)
        let pj2 := assignField pj1 "version" (.str "1.0.0")
        match jsMember pj2 "dependencies" with
        | .error _ => .error ()
        | .ok depsOpt =>
          let pj3 :=
            match depsOpt with
            | some deps =>
              if jsTruthy deps then
                match lookupJ deps "@posit/shiny-react" with
                | some v =>
                  if jsTruthy v then
                    assignField pj2 "dependencies"
                      (assignField deps "@posit/shiny-react" (.str "^0.0.6"))
                  else pj2
                | none => pj2
              else pj2
            | none => pj2
          let pj4 := assignField pj3 "scripts" (scriptsFor selectedBackend)
          .ok (.dir (setEntryList cs "package.json" (.file (.json pj4))))

end V3

/-- Next line of terminal input: a closed input stream reads as the empty
string. -/
def headInput : List String → String
  | [] => ""
  | x :: _ => x

def tailInputs : List String → List String
  | [] => []
  | _ :: rest => rest

/-- Validity test of the Python package-manager loop of `part_001`
(lines 412-426): `parseInt(choice || "1") - 1` must satisfy
`pmIndex >= 0 && pmIndex <= 2`; both comparisons are false for `NaN`. -/
def pmValid (x : String) : Bool :=
  match (parseIntJS (jsOr x "1")).map (fun v => v - 1) with
  | none => false
  | some v => 0 ≤ v && v ≤ 2

/-- The `do ... while (true)` package-manager prompt of `part_001`: re-asks
until a valid answer; an exhausted input stream reads as `""`, which the
default turns into the valid choice `1`.  Returns the unconsumed inputs. -/
def pmLoop : List String → List String
  | [] => []
  | x :: rest => if pmValid x then rest else pmLoop rest

/-- One answer of the CLAUDE.md prompt of `part_001` (lines 440-456):
`parseInt(choice || "1") - 1`; `=== 0` means yes, `=== 1` means no, anything
else (including `NaN`) re-asks. -/
def claudeChoiceOf (x : String) : Option Bool :=
  match ((parseIntJS (jsOr x "1")).map (fun v => v - 1) : Option Int) with
  | some 0 => some true
  | some 1 => some false
  | _ => none

/-- The `do ... while (true)` CLAUDE.md prompt loop of `part_001`: an
exhausted input stream reads as `""`, which defaults to yes. -/
def claudeLoop : List String → Bool × List String
  | [] => (true, [])
  | x :: rest =>
    match claudeChoiceOf x with
    | some b => (b, rest)
    | none => claudeLoop rest

/-- `claudeContent.replace(/\{project_name\}/g, appName)` (`part_001` line
487).  The CLAUDE.md template is markdown, i.e. a non-JSON `FData.text`; a
JSON-valued file is left opaque (no embedded claim touches that corner). -/
def substProjectName (d : FData) (appName : String) : FData :=
  match d with
  | .text s => .text (s.replace "{project_name}" appName)
  | .json v => .json v

/-- `fs.writeFileSync(path.join(targetDir, n), ...)`: create or overwrite a
top-level entry of the target directory. -/
def writeEntry (t : FSTree) (n : String) (sub : FSTree) : FSTree :=
  match t with
  | .dir cs => .dir (setEntryList cs n sub)
  | f => f

/-- The CLAUDE.md / SHINY-REACT.md injection step of `part_001`
(lines 477-503), run inside `main`'s `try`: each source file is copied when
present (the CLAUDE template with placeholder substitution) and produces a
non-fatal warning when missing; a source that is a directory makes the read
throw — `Except.error` carries the filesystem state reached before the
throw. -/
def addClaudeFiles (tcs : List (String × FSTree)) (t : FSTree) (appName : String) :
    Except FSTree FSTree :=
  let step1 : Except FSTree FSTree :=
    match lookupEntry "CLAUDE.md.template" tcs with
    | some (.file fd) => .ok (writeEntry t "CLAUDE.md" (.file (substProjectName fd appName)))
    | some (.dir _) => .error t
    | none => .ok t
  match step1 with
  | .error tp => .error tp
  | .ok t1 =>
    match lookupEntry "SHINY-REACT.md" tcs with
    | some (.file fd) => .ok (writeEntry t1 "SHINY-REACT.md" (.file fd))
    | some (.dir _) => .error t1
    | none => .ok t1

/-- How one invocation ends.  Every constructor except `success` corresponds
to an exit with code 1: `usage` (wrong argument count), `dirExists`
(pre-existing target), `templatesMissing`, `notDirCrash` (the templates path
is a file, so the `readdirSync` outside the `try` throws uncaught),
`invalidChoiceExit` (the out-of-range `process.exit(1)` of the first two
prompts), `srcMissing` (the `copyRecursive` existence check), and
`genericError` (the catch-all `catch` of `main`). -/
inductive MainOutcome where
  | usage
  | dirExists
  | templatesMissing
  | notDirCrash
  | invalidChoiceExit
  | srcMissing
  | genericError
  | success
deriving Repr, DecidableEq

def exitCode : MainOutcome → Nat
  | .success => 0
  | _ => 1

namespace V1

/-- The backend prompt text of `part_001` (line 375), which advertises `1`
as the default, although line 377 substitutes `"3"` for empty input. -/
def backendPrompt : String := "Choose a backend (1-2) [1]: "

/-- `main()` of `part_001` (lines 297-576) as a function of the argument
list, the state of the target path (`none` = does not exist), the state of
the templates root, and the terminal input lines.  Returns the outcome and
the final state of the target path.  All console output is dropped; the
summary printing touches no files. -/
def main (args : List String) (target : Option FSTree) (templates : Option FSTree)
    (inputs : List String) : MainOutcome × Option FSTree :=
  match args with
  | [appName] =>
    match target with
    | some _ => (.dirExists, target)
    | none =>
      match templates with
      | none => (.templatesMissing, none)
      | some (.file _) => (.notDirCrash, none)
      | some (.dir tcs) =>
        let availableTemplates := getAvailableTemplates tcs
        match chooseIndexed availableTemplates (headInput inputs) "2" with
        | .invalidExit => (.invalidChoiceExit, none)
        | .undefinedThrow => (.genericError, none)
        | .ok selectedTemplate =>
          let rest1 := tailInputs inputs
          match chooseIndexed BACKENDS (headInput rest1) "3" with
          | .invalidExit => (.invalidChoiceExit, none)
          | .undefinedThrow => (.genericError, none)
          | .ok selectedBackend =>
            let rest2 := tailInputs rest1
            let skipBackends := skipBackendsFor selectedBackend.id
            let rest3 := if selectedBackend.id = "py" then pmLoop rest2 else rest2
            let claude := claudeLoop rest3
            match lookupEntry selectedTemplate.id tcs with
            | none => (.srcMissing, none)
            | some src =>
              let copied := copyRecursive skipBackends src
              match updatePackageJson copied appName selectedBackend.id with
              | .error _ => (.genericError, some copied)
              | .ok t1 =>
                if claude.1 then
                  match addClaudeFiles tcs t1 appName with
                  | .error tp => (.genericError, some tp)
                  | .ok t2 => (.success, some t2)
                else (.success, some t1)
  | _ => (.usage, target)

end V1

/-! ### Basic lemmas about the filesystem and JSON primitives -/

theorem lookupField_setFieldList_self (fs : List (String × JValue)) (k : String) (v : JValue) :
    lookupField k (setFieldList fs k v) = some v := by
  induction fs with
  | nil => simp [setFieldList, lookupField]
  | cons p rest ih =>
    obtain ⟨m, w⟩ := p
    by_cases h : m = k
    · simp [setFieldList, h, lookupField]
    · simp [setFieldList, h, lookupField, ih]

theorem lookupField_setFieldList_ne (fs : List (String × JValue)) (k k' : String) (v : JValue)
    (h : k' ≠ k) : lookupField k' (setFieldList fs k v) = lookupField k' fs := by
  induction fs with
  | nil => simp [setFieldList, lookupField, Ne.symm h]
  | cons p rest ih =>
    obtain ⟨m, w⟩ := p
    by_cases hm : m = k
    · subst hm
      simp [setFieldList, lookupField, Ne.symm h]
    · simp [setFieldList, hm, lookupField, ih]

def JValue.isObj : JValue → Bool
  | .obj _ => true
  | _ => false

theorem assignField_isObj (o : JValue) (k : String) (v : JValue) :
    (assignField o k v).isObj = o.isObj := by
  cases o <;> rfl

theorem lookupJ_assignField_self (fs : List (String × JValue)) (k : String) (v : JValue) :
    lookupJ (assignField (.obj fs) k v) k = some v := by
  simp [assignField, lookupJ, lookupField_setFieldList_self]

theorem lookupJ_assignField_ne (o : JValue) (k k' : String) (v : JValue) (h : k' ≠ k) :
    lookupJ (assignField o k v) k' = lookupJ o k' := by
  cases o <;> simp [assignField, lookupJ, lookupField_setFieldList_ne _ _ _ _ h]

theorem foldAssign_cons (excl : List String) (p : String × JValue)
    (pairs : List (String × JValue)) (pj : JValue) :
    foldAssign excl (p :: pairs) pj =
      foldAssign excl pairs
        (if excl.contains p.1 then pj
         else assignField pj p.1 (spreadMerge (lookupJ pj p.1) p.2)) := by
  rw [foldAssign, List.foldl_cons, foldAssign]

theorem foldAssign_isObj (excl : List String) (pairs : List (String × JValue)) (pj : JValue) :
    (foldAssign excl pairs pj).isObj = pj.isObj := by
  induction pairs generalizing pj with
  | nil => rfl
  | cons p rest ih =>
    rw [foldAssign_cons]
    by_cases h : excl.contains p.1 = true
    · rw [if_pos h, ih]
    · rw [if_neg h, ih, assignField_isObj]

theorem foldAssign_lookup_notin (excl : List String) (pairs : List (String × JValue))
    (pj : JValue) (k : String) (h : ∀ p ∈ pairs, p.1 ∈ excl ∨ p.1 ≠ k) :
    lookupJ (foldAssign excl pairs pj) k = lookupJ pj k := by
  induction pairs generalizing pj with
  | nil => rfl
  | cons p rest ih =>
    rw [foldAssign_cons]
    have hrest : ∀ q ∈ rest, q.1 ∈ excl ∨ q.1 ≠ k := fun q hq => h q (List.mem_cons_of_mem _ hq)
    by_cases hx : excl.contains p.1 = true
    · rw [if_pos hx, ih _ hrest]
    · rw [if_neg hx, ih _ hrest]
      rcases h p (List.mem_cons_self _ _) with hmem | hne
      · exact absurd (List.elem_eq_true_of_mem hmem) hx
      · rw [lookupJ_assignField_ne _ _ _ _ (Ne.symm hne)]

theorem foldAssign_lookup_mem (excl : List String) (pairs : List (String × JValue))
    (pj : JValue) (k : String) (v : JValue) (hn : (pairs.map Prod.fst).Nodup)
    (hmem : (k, v) ∈ pairs) (hke : k ∉ excl) (ho : pj.isObj = true) :
    lookupJ (foldAssign excl pairs pj) k = some (spreadMerge (lookupJ pj k) v) := by
  induction pairs generalizing pj with
  | nil => cases hmem
  | cons p rest ih =>
    obtain ⟨m, w⟩ := p
    rw [foldAssign_cons]
    simp only [List.map_cons, List.nodup_cons] at hn
    rcases List.mem_cons.mp hmem with heq | hrest
    · cases heq
      have hkexcl : ¬((k, v).1 ∈ [] ++ excl) := by simpa using hke
      rw [if_neg (by simpa using fun hc => hke (by simpa using hc))]
      have hnotin : ∀ q ∈ rest, q.1 ∈ excl ∨ q.1 ≠ k := by
        intro q hq
        right
        intro hqk
        exact hn.1 (hqk ▸ List.mem_map_of_mem Prod.fst hq)
      obtain ⟨pfs, rfl⟩ : ∃ pfs, pj = JValue.obj pfs := by
        cases pj <;> simp_all [JValue.isObj]
      rw [foldAssign_lookup_notin _ _ _ _ hnotin]
      exact lookupJ_assignField_self _ _ _
    · have hmk : k ≠ m := by
        intro hkm
        exact hn.1 (hkm ▸ List.mem_map_of_mem Prod.fst hrest)
      by_cases hx : excl.contains m = true
      · rw [if_pos hx]
        exact ih _ hn.2 hrest ho
      · rw [if_neg hx]
        have ho' : (assignField pj m (spreadMerge (lookupJ pj m) w)).isObj = true := by
          rw [assignField_isObj]; exact ho
        rw [ih _ hn.2 hrest ho', lookupJ_assignField_ne _ _ _ _ hmk]

theorem lookupEntry_setEntryList_self (cs : List (String × FSTree)) (n : String) (t : FSTree) :
    lookupEntry n (setEntryList cs n t) = some t := by
  induction cs with
  | nil => simp [setEntryList, lookupEntry]
  | cons p rest ih =>
    obtain ⟨m, u⟩ := p
    by_cases h : m = n
    · simp [setEntryList, h, lookupEntry]
    · simp [setEntryList, h, lookupEntry, ih]

theorem lookupEntry_setEntryList_ne (cs : List (String × FSTree)) (n n' : String) (t : FSTree)
    (h : n' ≠ n) : lookupEntry n' (setEntryList cs n t) = lookupEntry n' cs := by
  induction cs with
  | nil => simp [setEntryList, lookupEntry, Ne.symm h]
  | cons p rest ih =>
    obtain ⟨m, u⟩ := p
    by_cases hm : m = n
    · subst hm
      simp [setEntryList, lookupEntry, Ne.symm h]
    · simp [setEntryList, hm, lookupEntry, ih]

theorem removeEntry_cons (m : String) (u : FSTree) (rest : List (String × FSTree)) (n : String) :
    removeEntry ((m, u) :: rest) n =
      if m = n then removeEntry rest n else (m, u) :: removeEntry rest n := by
  by_cases h : m = n <;> simp [removeEntry, h]

theorem lookupEntry_removeEntry_self (cs : List (String × FSTree)) (n : String) :
    lookupEntry n (removeEntry cs n) = none := by
  induction cs with
  | nil => rfl
  | cons p rest ih =>
    obtain ⟨m, u⟩ := p
    rw [removeEntry_cons]
    by_cases h : m = n
    · rw [if_pos h]; exact ih
    · rw [if_neg h, lookupEntry, if_neg h]; exact ih

theorem lookupEntry_removeEntry_ne (cs : List (String × FSTree)) (n n' : String)
    (h : n' ≠ n) : lookupEntry n' (removeEntry cs n) = lookupEntry n' cs := by
  induction cs with
  | nil => rfl
  | cons p rest ih =>
    obtain ⟨m, u⟩ := p
    rw [removeEntry_cons]
    by_cases hm : m = n
    · subst hm
      rw [if_pos rfl, lookupEntry, if_neg (fun hq => h hq.symm)]
      exact ih
    · rw [if_neg hm, lookupEntry, lookupEntry]
      by_cases hq : m = n'
      · rw [if_pos hq, if_pos hq]
      · rw [if_neg hq, if_neg hq]; exact ih

/-! ### Lemmas about `copyRecursive` -/

mutual
theorem containsEntry_copyRecursive (skipBackends : List String) (n : String)
    (h : (SKIP_PATHS.contains n || skipBackends.contains n) = true) :
    (t : FSTree) → containsEntry n (copyRecursive skipBackends t) = false
  | .file _ => rfl
  | .dir cs => by
    rw [copyRecursive, containsEntry]
    exact containsChildren_copyChildren skipBackends n h cs

theorem containsChildren_copyChildren (skipBackends : List String) (n : String)
    (h : (SKIP_PATHS.contains n || skipBackends.contains n) = true) :
    (cs : List (String × FSTree)) → containsChildren n (copyChildren skipBackends cs) = false
  | [] => rfl
  | (m, t) :: rest => by
    rw [copyChildren]
    by_cases hm : (SKIP_PATHS.contains m || skipBackends.contains m) = true
    · rw [if_pos hm]
      exact containsChildren_copyChildren skipBackends n h rest
    · rw [if_neg hm, containsChildren]
      have hmn : (m == n) = false := by
        by_cases hq : m = n
        · exact absurd (hq ▸ h) hm
        · exact beq_false_of_ne hq
      rw [hmn, containsEntry_copyRecursive skipBackends n h t,
        containsChildren_copyChildren skipBackends n h rest]
      rfl
end

theorem lookupEntry_copyChildren (skipBackends : List String) (n : String)
    (h : (SKIP_PATHS.contains n || skipBackends.contains n) = false)
    (cs : List (String × FSTree)) :
    lookupEntry n (copyChildren skipBackends cs) =
      (lookupEntry n cs).map (copyRecursive skipBackends) := by
  induction cs with
  | nil => rfl
  | cons p rest ih =>
    obtain ⟨m, t⟩ := p
    rw [copyChildren]
    by_cases hm : (SKIP_PATHS.contains m || skipBackends.contains m) = true
    · have hmn : m ≠ n := fun hq => by rw [hq, h] at hm; cases hm
      rw [if_pos hm, ih, lookupEntry, if_neg hmn]
    · by_cases hq : m = n
      · subst hq
        rw [if_neg hm, lookupEntry, lookupEntry, if_pos rfl, if_pos rfl]
        rfl
      · rw [if_neg hm, lookupEntry, lookupEntry, if_neg hq, if_neg hq, ih]

mutual
theorem containsEntry_copyRecursive_v3 (skipBackends : List String) (n : String)
    (h : n = "node_modules" ∨ n = "www" ∨ n ∈ skipBackends) :
    (t : FSTree) → containsEntry n (V3.copyRecursive skipBackends t) = false
  | .file _ => rfl
  | .dir cs => by
    rw [V3.copyRecursive, containsEntry]
    exact containsChildren_copyChildren_v3 skipBackends n h cs

theorem containsChildren_copyChildren_v3 (skipBackends : List String) (n : String)
    (h : n = "node_modules" ∨ n = "www" ∨ n ∈ skipBackends) :
    (cs : List (String × FSTree)) →
      containsChildren n (V3.copyChildren skipBackends cs) = false
  | [] => rfl
  | (m, t) :: rest => by
    rw [V3.copyChildren]
    by_cases h1 : m = "node_modules" ∨ m = "www"
    · rw [if_pos h1]
      exact containsChildren_copyChildren_v3 skipBackends n h rest
    · rw [if_neg h1]
      by_cases h2 : skipBackends.contains m = true
      · rw [if_pos h2]
        exact containsChildren_copyChildren_v3 skipBackends n h rest
      · rw [if_neg h2, containsChildren]
        have hmn : (m == n) = false := by
          by_cases hq : m = n
          · subst hq
            rcases h with h | h | h
            · exact absurd (Or.inl h) h1
            · exact absurd (Or.inr h) h1
            · exact absurd (List.elem_eq_true_of_mem h) h2
          · exact beq_false_of_ne hq
        rw [hmn, containsEntry_copyRecursive_v3 skipBackends n h t,
          containsChildren_copyChildren_v3 skipBackends n h rest]
        rfl
end

/-! ### Claim theorems -/

/-- C1: for every invocation whose target path already exists at startup,
`main` exits with code 1 and performs no filesystem modification — the
final state of the target path equals its initial state (the existence
check at `part_001` lines 317-321 runs before any prompt, copy, or patch
step; the only earlier exit is the argument-count usage message, which also
exits 1 without touching the filesystem). -/
theorem c1_preexisting_target_exits_unmodified (args : List String) (t : FSTree)
    (templates : Option FSTree) (inputs : List String) :
    (V1.main args (some t) templates inputs).2 = some t ∧
    exitCode (V1.main args (some t) templates inputs).1 = 1 := by
  match args with
  | [] => exact ⟨rfl, rfl⟩
  | [a] => exact ⟨rfl, rfl⟩
  | a :: b :: rest => exact ⟨rfl, rfl⟩

/-- C2 (bug evidence): the backend prompt of `part_001` displays `[1]` as
its default (line 375), yet an empty answer is substituted with `"3"`
(line 377), which is out of range for the two-element backend list, so the
run prints the invalid-choice error and exits 1 instead of selecting
backend 1 and proceeding.  Typing the advertised default `1` explicitly
does select backend `r` and the run succeeds. -/
theorem c2_backend_prompt_empty_input_is_fatal :
    V1.backendPrompt = "Choose a backend (1-2) [1]: " ∧
    V1.main ["demo"] none (some (.dir [("1-basic", .dir [])])) ["1", ""] =
      (MainOutcome.invalidChoiceExit, none) ∧
    (V1.main ["demo"] none (some (.dir [("1-basic", .dir [])])) ["1", "1"]).1 =
      MainOutcome.success ∧
    chooseIndexed V1.BACKENDS "1" "3" =
      ChoiceOutcome.ok { id := "r", name := "R (Shiny for R)" } :=
  ⟨rfl, rfl, rfl, rfl⟩

/-- C6 (counterexample): `part_003`'s materializer has no four-name
skip-list — its inline test names only `node_modules` and `www` — so
`__pycache__` and `.DS_Store` entries present in the source tree are copied
into the destination, falsifying the four-name universal claim for that
variant. -/
theorem c6_counterexample :
    V3.copyRecursive []
      (.dir [("__pycache__", .dir [("cache.pyc", .file (.text "c"))]),
             (".DS_Store", .file (.text "d")),
             ("www", .dir [])]) =
      .dir [("__pycache__", .dir [("cache.pyc", .file (.text "c"))]),
            (".DS_Store", .file (.text "d"))] ∧
    containsEntry "__pycache__"
      (.dir [("__pycache__", .dir [("cache.pyc", .file (.text "c"))]),
             (".DS_Store", .file (.text "d"))]) = true ∧
    containsEntry ".DS_Store"
      (.dir [("__pycache__", .dir [("cache.pyc", .file (.text "c"))]),
             (".DS_Store", .file (.text "d"))]) = true :=
  ⟨rfl, rfl, rfl⟩

/-- C6 (amended): in the `part_001`/`part_002` materializer, an entry whose
name is in the static skip-list (`node_modules`, `www`, `__pycache__`,
`.DS_Store`) is never copied, at any depth of the recursion, whatever the
source tree and backend skip set; the `part_003` materializer skips only
`node_modules` and `www` (at every depth) — `__pycache__` and `.DS_Store`
entries present in its source are copied. -/
theorem c6_skiplist_filtering_per_variant :
    (∀ n, n ∈ SKIP_PATHS → ∀ (skipBackends : List String) (src : FSTree),
      containsEntry n (copyRecursive skipBackends src) = false) ∧
    (∀ n, n = "node_modules" ∨ n = "www" → ∀ (skipBackends : List String) (src : FSTree),
      containsEntry n (V3.copyRecursive skipBackends src) = false) :=
  ⟨fun n hn skipBackends src =>
    containsEntry_copyRecursive skipBackends n (by simp [hn]) src,
   fun n hn skipBackends src =>
    containsEntry_copyRecursive_v3 skipBackends n (hn.imp id Or.inl) src⟩

/-- Witness for C6 at concrete inputs: the V1/V2 copy of a tree carrying
`node_modules` entries contains none, and the `part_003` copy of a tree
carrying a nested `www` contains none. -/
theorem c6_skiplist_filtering_per_variant_witness :
    ("node_modules" ∈ SKIP_PATHS ∧
      containsEntry "node_modules"
        (copyRecursive []
          (.dir [("node_modules", .dir []),
                 ("a", .dir [("node_modules", .file (.text "x"))])])) = false) ∧
    containsEntry "www"
      (V3.copyRecursive [] (.dir [("a", .dir [("www", .dir [])])])) = false :=
  ⟨⟨by decide,
    c6_skiplist_filtering_per_variant.1 "node_modules" (by decide) [] _⟩,
   c6_skiplist_filtering_per_variant.2 "www" (Or.inr rfl) [] _⟩

/-- C7: when backend `r` is selected the copy contains no entry named `py`
anywhere (hence no path under a `py` directory), symmetrically for `py`;
when `both` is selected the skip set is empty and each backend entry of the
source directory is copied as-is (present in the target iff present in the
source). -/
theorem c7_backend_subtree_filtering :
    (∀ src : FSTree, containsEntry "py" (copyRecursive (skipBackendsFor "r") src) = false) ∧
    (∀ src : FSTree, containsEntry "r" (copyRecursive (skipBackendsFor "py") src) = false) ∧
    (∀ (cs : List (String × FSTree)) (n : String), n = "r" ∨ n = "py" →
      lookupEntry n (copyChildren (skipBackendsFor "both") cs) =
        (lookupEntry n cs).map (copyRecursive (skipBackendsFor "both"))) := by
  refine ⟨fun src => ?_, fun src => ?_, fun cs n hn => ?_⟩
  · exact containsEntry_copyRecursive _ _ (by decide) src
  · exact containsEntry_copyRecursive _ _ (by decide) src
  · rcases hn with rfl | rfl
    · exact lookupEntry_copyChildren _ _ (by decide) cs
    · exact lookupEntry_copyChildren _ _ (by decide) cs

/-- Witness for C7 at a concrete input: selecting `r` drops the `py`
subtree; selecting `both` keeps the `r` subtree. -/
theorem c7_backend_subtree_filtering_witness :
    containsEntry "py"
      (copyRecursive (skipBackendsFor "r")
        (.dir [("py", .dir [("app.py", .file (.text "x"))]), ("r", .dir [])])) = false ∧
    lookupEntry "r"
      (copyChildren (skipBackendsFor "both")
        [("py", .dir []), ("r", .dir [("app.R", .file (.text "y"))])]) =
      some (copyRecursive (skipBackendsFor "both") (.dir [("app.R", .file (.text "y"))])) := by
  constructor
  · exact c7_backend_subtree_filtering.1 _
  · rw [c7_backend_subtree_filtering.2.2 _ "r" (Or.inl rfl)]
    rfl

/-- C10: a non-empty prompt answer with no parseable leading digits makes
`parseInt` return `NaN`; both range comparisons against `NaN` are false, so
the invalid-choice exit is not taken; indexing the option list with `NaN`
yields `undefined`, and the later property access on it throws, landing in
`main`'s generic catch-all error path (exit 1, no invalid-choice message,
nothing written to the target). -/
theorem c10_nan_choice_passes_validation_then_throws (s : String) (hne : s ≠ "")
    (hnan : parseIntJS s = none) (name : String) (cs : List (String × FSTree))
    (rest : List String) :
    chooseIndexed (getAvailableTemplates cs) s "2" = ChoiceOutcome.undefinedThrow ∧
    chooseIndexed V1.BACKENDS s "3" = ChoiceOutcome.undefinedThrow ∧
    V1.main [name] none (some (.dir cs)) (s :: rest) = (MainOutcome.genericError, none) := by
  have key : ∀ {α : Type} (opts : List α) (d : String),
      chooseIndexed opts s d = ChoiceOutcome.undefinedThrow := by
    intro α opts d
    rw [chooseIndexed]
    rw [show jsOr s d = s from if_neg hne, hnan]
    simp [jsLtZero, jsGeLen, jsIndex]
  refine ⟨key _ _, key _ _, ?_⟩
  show V1.main [name] none (some (.dir cs)) (s :: rest) = (MainOutcome.genericError, none)
  rw [V1.main]
  rw [show headInput (s :: rest) = s from rfl, key (getAvailableTemplates cs) "2"]

/-- Witness for C10 at the concrete input `"abc"`. -/
theorem c10_nan_choice_passes_validation_then_throws_witness :
    chooseIndexed (getAvailableTemplates []) "abc" "2" = ChoiceOutcome.undefinedThrow ∧
    chooseIndexed V1.BACKENDS "abc" "3" = ChoiceOutcome.undefinedThrow ∧
    V1.main ["demo"] none (some (.dir [])) ["abc"] = (MainOutcome.genericError, none) :=
  c10_nan_choice_passes_validation_then_throws "abc" (by decide) (by decide) "demo" [] []

theorem jsMember_ok (v : JValue) (k : String) (h : v ≠ .null) :
    jsMember v k = .ok (lookupJ v k) := by
  cases v
  case null => exact absurd rfl h
  all_goals rfl

/-- C4 (counterexample): a run in which the side-file exists but fails to
parse — exactly the downgraded-to-warning case the claim includes — leaves
the side-file in the target: the `fs.unlinkSync` sits after the parse inside
the same `try`, so the throw skips it. -/
theorem c4_counterexample :
    V2.updatePackageJson
      (.dir [("package.json", .file (.json (.obj [("name", .str "old")]))),
             ("package-config.json", .file (.text "not json"))]) "demo" "py" =
      .ok (.dir [("package.json", .file (.json (.obj [("name", .str "demo")]))),
                 ("package-config.json", .file (.text "not json"))]) ∧
    lookupEntry "package-config.json"
      [("package.json", .file (.json (.obj [("name", .str "demo")]))),
       ("package-config.json", .file (.text "not json"))] =
      some (.file (.text "not json")) :=
  ⟨rfl, rfl⟩

/-- C4 (amended): whenever the side-file exists and parses successfully (to
a non-`null` value, so that indexing it does not throw) and the manifest
itself parses (for V1 to an object, for V2 to a non-`null` value), the
side-file is deleted from the target by the end of the patcher, whether or
not the parsed config contains an entry for the selected backend.  On a
side-file parse failure the warning path leaves it in place. -/
theorem c4_sidefile_deleted_on_parse_success :
    (∀ (cs : List (String × FSTree)) (app be : String) (pfs : List (String × JValue))
        (sfd : FData) (cfg : JValue),
      lookupEntry "package.json" cs = some (.file (.json (.obj pfs))) →
      lookupEntry "package-custom.json" cs = some (.file sfd) →
      parseJSON sfd = some cfg → cfg ≠ .null →
      ∃ cs', V1.updatePackageJson (.dir cs) app be = .ok (.dir cs') ∧
        lookupEntry "package-custom.json" cs' = none) ∧
    (∀ (cs : List (String × FSTree)) (app be : String) (pj : JValue)
        (sfd : FData) (cfg : JValue),
      lookupEntry "package.json" cs = some (.file (.json pj)) → pj ≠ .null →
      lookupEntry "package-config.json" cs = some (.file sfd) →
      parseJSON sfd = some cfg → cfg ≠ .null →
      ∃ cs', V2.updatePackageJson (.dir cs) app be = .ok (.dir cs') ∧
        lookupEntry "package-config.json" cs' = none) := by
  constructor
  · intro cs app be pfs sfd cfg hm hs hp hcfg
    simp only [V1.updatePackageJson, hm, hs, hp, jsMember_ok cfg be hcfg]
    rcases lookupJ cfg be with _ | bc
    · exact ⟨_, rfl, by
        rw [lookupEntry_setEntryList_ne _ _ _ _ (by decide), lookupEntry_removeEntry_self]⟩
    · by_cases ht : jsTruthy bc = true
      · simp only [ht, if_true]
        exact ⟨_, rfl, by
          rw [lookupEntry_setEntryList_ne _ _ _ _ (by decide), lookupEntry_removeEntry_self]⟩
      · simp only [Bool.not_eq_true] at ht
        simp only [ht, Bool.false_eq_true, if_false]
        exact ⟨_, rfl, by
          rw [lookupEntry_setEntryList_ne _ _ _ _ (by decide), lookupEntry_removeEntry_self]⟩
  · intro cs app be pj sfd cfg hm hpj hs hp hcfg
    simp only [V2.updatePackageJson, hm, hs, hp, jsMember_ok cfg be hcfg]
    rcases pj with s | n | b | _ | xs | fs
    case null => exact absurd rfl hpj
    all_goals
      rcases lookupJ cfg be with _ | bc
      case none =>
        exact ⟨_, rfl, by
          rw [lookupEntry_setEntryList_ne _ _ _ _ (by decide), lookupEntry_removeEntry_self]⟩
      case some =>
        by_cases ht : jsTruthy bc = true
        · simp only [ht, if_true]
          exact ⟨_, rfl, by
            rw [lookupEntry_setEntryList_ne _ _ _ _ (by decide), lookupEntry_removeEntry_self]⟩
        · simp only [Bool.not_eq_true] at ht
          simp only [ht, Bool.false_eq_true, if_false]
          exact ⟨_, rfl, by
            rw [lookupEntry_setEntryList_ne _ _ _ _ (by decide), lookupEntry_removeEntry_self]⟩

/-- Witness for C4 at concrete inputs, both variants. -/
theorem c4_sidefile_deleted_on_parse_success_witness :
    (∃ cs', V1.updatePackageJson
        (.dir [("package.json", .file (.json (.obj [("name", .str "x")]))),
               ("package-custom.json", .file (.json (.obj [("py", .obj [])])))])
        "demo" "py" = .ok (.dir cs') ∧
      lookupEntry "package-custom.json" cs' = none) ∧
    (∃ cs', V2.updatePackageJson
        (.dir [("package.json", .file (.json (.obj [("name", .str "x")]))),
               ("package-config.json", .file (.json (.obj [("py", .obj [])])))])
        "demo" "py" = .ok (.dir cs') ∧
      lookupEntry "package-config.json" cs' = none) :=
  ⟨c4_sidefile_deleted_on_parse_success.1 _ "demo" "py" _ _ _ rfl rfl rfl (by simp),
   c4_sidefile_deleted_on_parse_success.2 _ "demo" "py" _ _ _ rfl (by simp) rfl rfl (by simp)⟩

/-- C3 (counterexample): in the `package-custom.json` patcher of `part_001`
the `scripts` field is merged shallowly like every other key — there is no
wholesale replacement — so a prior manifest script key (`"old"`) survives
the patch and the resulting `scripts` differs from the backend entry's
`scripts`. -/
theorem c3_counterexample :
    V1.updatePackageJson
      (.dir [("package.json", .file (.json (.obj
              [("name", .str "x"), ("scripts", .obj [("old", .str "a")])]))),
             ("package-custom.json", .file (.json (.obj
              [("py", .obj [("scripts", .obj [("new", .str "b")])])])))]) "demo" "py" =
      .ok (.dir [("package.json", .file (.json (.obj
              [("name", .str "demo"),
               ("scripts", .obj [("old", .str "a"), ("new", .str "b")])])))]) ∧
    JValue.obj [("old", .str "a"), ("new", .str "b")] ≠ .obj [("new", .str "b")] ∧
    lookupField "old" [("old", JValue.str "a"), ("new", .str "b")] = some (.str "a") :=
  ⟨rfl, by simp, rfl⟩

/-- C3 (amended): in the `package-config.json` patcher of `part_002`, when
the side-file parses and its (truthy) entry for the selected backend has a
truthy `scripts` field `s`, the patched manifest's `scripts` equals `s`
exactly — no key of the manifest's prior `scripts` survives — and every
other key of the backend entry is merged shallowly
(`{ ...packageJson[k], ...backendConfig[k] }`).  In the `package-custom.json`
variant of `part_001` the `scripts` key is instead merged shallowly like any
other key. -/
theorem c3_scripts_replaced_wholesale_v2
    (cs : List (String × FSTree)) (app be : String) (pfs : List (String × JValue))
    (sfd : FData) (cfg bc s : JValue)
    (hm : lookupEntry "package.json" cs = some (.file (.json (.obj pfs))))
    (hs : lookupEntry "package-config.json" cs = some (.file sfd))
    (hp : parseJSON sfd = some cfg)
    (hcfg : cfg ≠ .null)
    (hbc : lookupJ cfg be = some bc)
    (hbt : jsTruthy bc = true)
    (hscr : lookupJ bc "scripts" = some s)
    (hst : jsTruthy s = true) :
    ∃ pj2, V2.updatePackageJson (.dir cs) app be =
        .ok (.dir (setEntryList (removeEntry cs "package-config.json") "package.json"
          (.file (.json pj2)))) ∧
      lookupJ pj2 "scripts" = some s ∧
      (∀ (k : String) (v : JValue), (k, v) ∈ spreadPairs bc → k ≠ "scripts" →
        ((spreadPairs bc).map Prod.fst).Nodup →
        lookupJ pj2 k =
          some (spreadMerge
            (lookupJ (assignField (assignField (.obj pfs) "name" (.str app)) "scripts" s) k)
            v)) := by
  simp only [V2.updatePackageJson, hm, hs, hp, jsMember_ok cfg be hcfg, hbc, hbt, if_true,
    hscr, hst]
  refine ⟨_, rfl, ?_, ?_⟩
  · rw [foldAssign_lookup_notin _ _ _ _ (fun p _ => by
      by_cases h : p.1 = "scripts"
      · exact Or.inl (by simp [h])
      · exact Or.inr h)]
    have h1 : assignField (.obj pfs) "name" (.str app) =
        JValue.obj (setFieldList pfs "name" (.str app)) := rfl
    rw [h1]
    exact lookupJ_assignField_self _ _ _
  · intro k v hkv hks hnd
    exact foldAssign_lookup_mem _ _ _ _ _ hnd hkv (by simpa using hks) (by rfl)

/-- Witness for C3 at a concrete input: the backend entry's `scripts`
replaces the manifest's, and its `dependencies` key merges shallowly. -/
theorem c3_scripts_replaced_wholesale_v2_witness :
    ∃ pj2, V2.updatePackageJson
        (.dir [("package.json", .file (.json (.obj
                [("name", .str "x"), ("scripts", .obj [("w", .str "1")])]))),
               ("package-config.json", .file (.json (.obj
                [("py", .obj [("scripts", .obj [("dev", .str "d")]),
                              ("dependencies", .obj [("p", .str "2")])])])))])
        "demo" "py" =
        .ok (.dir (setEntryList
          (removeEntry
            [("package.json", .file (.json (.obj
              [("name", .str "x"), ("scripts", .obj [("w", .str "1")])]))),
             ("package-config.json", .file (.json (.obj
              [("py", .obj [("scripts", .obj [("dev", .str "d")]),
                            ("dependencies", .obj [("p", .str "2")])])])))]
            "package-config.json")
          "package.json" (.file (.json pj2)))) ∧
      lookupJ pj2 "scripts" = some (.obj [("dev", .str "d")]) ∧
      (∀ (k : String) (v : JValue),
        (k, v) ∈ spreadPairs (JValue.obj [("scripts", .obj [("dev", .str "d")]),
                                          ("dependencies", .obj [("p", .str "2")])]) →
        k ≠ "scripts" →
        ((spreadPairs (JValue.obj [("scripts", .obj [("dev", .str "d")]),
                                   ("dependencies", .obj [("p", .str "2")])])).map
          Prod.fst).Nodup →
        lookupJ pj2 k =
          some (spreadMerge
            (lookupJ (assignField
              (assignField (.obj [("name", .str "x"), ("scripts", .obj [("w", .str "1")])])
                "name" (.str "demo"))
              "scripts" (.obj [("dev", .str "d")])) k)
            v)) :=
  c3_scripts_replaced_wholesale_v2 _ "demo" "py" _ _ _ _ _
    rfl rfl rfl (by simp) rfl rfl rfl rfl

/-- C8 (counterexample): the merge loop treats a `name` key of the backend
entry like any other key, so a side-file entry `{"py": {"name": "y"}}`
overwrites the just-assigned project name with the object produced by
spreading the two strings — the patched manifest's `name` is not the CLI
argument `"demo"`. -/
theorem c8_counterexample :
    V1.updatePackageJson
      (.dir [("package.json", .file (.json (.obj [("name", .str "x")]))),
             ("package-custom.json", .file (.json (.obj
              [("py", .obj [("name", .str "y")])])))]) "demo" "py" =
      .ok (.dir [("package.json", .file (.json (.obj
        [("name", .obj [("0", .str "y"), ("1", .str "e"),
                        ("2", .str "m"), ("3", .str "o")])])))]) ∧
    JValue.obj [("0", .str "y"), ("1", .str "e"), ("2", .str "m"), ("3", .str "o")] ≠
      .str "demo" :=
  ⟨rfl, by simp⟩

/-- The side-file state under which the `part_001` merge cannot touch the
manifest's `name`: either there is no applicable backend entry, or the
(truthy) backend entry has no own `name` key. -/
def nameSafeCustom (cs : List (String × FSTree)) (be : String) : Bool :=
  match lookupEntry "package-custom.json" cs with
  | some (.file sfd) =>
    match parseJSON sfd with
    | some cfg =>
      match jsMember cfg be with
      | .ok (some bc) => !(jsTruthy bc) || !(((spreadPairs bc).map Prod.fst).contains "name")
      | _ => true
    | none => true
  | _ => true

/-- C8 (amended): the patched manifest's `name` equals the CLI's
project-name argument whenever the side-file cannot override it — always in
the inline-scripts variant of `part_003`, and in the `part_001` variant
whenever the applicable backend entry of the side-file (if any) has no own
`name` key.  (The counterexample shows a `name`-bearing backend entry
overwrites it.) -/
theorem c8_name_field_equals_argument :
    (∀ (cs : List (String × FSTree)) (app be : String) (pfs : List (String × JValue)),
      lookupEntry "package.json" cs = some (.file (.json (.obj pfs))) →
      ∃ pj4, V3.updatePackageJson (.dir cs) app be =
          .ok (.dir (setEntryList cs "package.json" (.file (.json pj4)))) ∧
        lookupJ pj4 "name" = some (.str app)) ∧
    (∀ (cs : List (String × FSTree)) (app be : String) (pfs : List (String × JValue)),
      lookupEntry "package.json" cs = some (.file (.json (.obj pfs))) →
      nameSafeCustom cs be = true →
      ∃ pj2 cs', V1.updatePackageJson (.dir cs) app be = .ok (.dir cs') ∧
        lookupEntry "package.json" cs' = some (.file (.json pj2)) ∧
        lookupJ pj2 "name" = some (.str app)) := by
  constructor
  · intro cs app be pfs hm
    have hbase : lookupJ (assignField (assignField (JValue.obj pfs) "name" (.str app))
        "version" (.str "1.0.0")) "name" = some (.str app) := by
      rw [lookupJ_assignField_ne _ _ _ _ (by decide)]
      exact lookupJ_assignField_self _ _ _
    have hnn : assignField (assignField (JValue.obj pfs) "name" (.str app))
        "version" (.str "1.0.0") ≠ JValue.null := by
      simp [assignField]
    simp only [V3.updatePackageJson, hm, parseJSON]
    rw [jsMember_ok _ "dependencies" hnn]
    refine ⟨_, rfl, ?_⟩
    rw [lookupJ_assignField_ne _ _ _ _ (by decide)]
    repeat' split
    all_goals
      first
      | exact hbase
      | (rw [lookupJ_assignField_ne _ _ _ _ (by decide)]; exact hbase)
  · intro cs app be pfs hm hsafe
    have hname1 : lookupJ (assignField (.obj pfs) "name" (.str app)) "name" =
        some (.str app) := lookupJ_assignField_self _ _ _
    simp only [V1.updatePackageJson, hm]
    rcases hside : lookupEntry "package-custom.json" cs with _ | sub
    · simp only [hside]
      exact ⟨_, _, rfl, lookupEntry_setEntryList_self _ _ _, hname1⟩
    · rcases sub with sfd | subcs
      · simp only [hside]
        rcases hsp : parseJSON sfd with _ | cfg
        · simp only [hsp]
          exact ⟨_, _, rfl, lookupEntry_setEntryList_self _ _ _, hname1⟩
        · simp only [hsp]
          rcases hjm : jsMember cfg be with e | bcOpt
          · simp only [hjm]
            exact ⟨_, _, rfl, lookupEntry_setEntryList_self _ _ _, hname1⟩
          · rcases bcOpt with _ | bc
            · simp only [hjm]
              exact ⟨_, _, rfl, lookupEntry_setEntryList_self _ _ _, hname1⟩
            · simp only [hjm]
              by_cases hbt : jsTruthy bc = true
              · simp only [nameSafeCustom, hside, hsp, hjm, hbt, Bool.not_true,
                  Bool.false_or] at hsafe
                have hnm : "name" ∉ (spreadPairs bc).map Prod.fst := by
                  intro hmem
                  have h1 : ((spreadPairs bc).map Prod.fst).contains "name" = true := by
                    show List.elem "name" _ = true
                    exact List.elem_eq_true_of_mem hmem
                  rw [h1] at hsafe
                  simp at hsafe
                simp only [hbt, if_true]
                refine ⟨_, _, rfl, lookupEntry_setEntryList_self _ _ _, ?_⟩
                rw [foldAssign_lookup_notin _ _ _ _ (fun p hp => Or.inr (fun he =>
                  hnm (by rw [← he]; exact List.mem_map_of_mem Prod.fst hp)))]
                exact hname1
              · have hbt' : jsTruthy bc = false := by simpa using hbt
                simp only [hbt', Bool.false_eq_true, if_false]
                exact ⟨_, _, rfl, lookupEntry_setEntryList_self _ _ _, hname1⟩
      · simp only [hside]
        exact ⟨_, _, rfl, lookupEntry_setEntryList_self _ _ _, hname1⟩

/-- Witness for C8 at concrete inputs, both variants. -/
theorem c8_name_field_equals_argument_witness :
    (∃ pj4, V3.updatePackageJson
        (.dir [("package.json", .file (.json (.obj [("name", .str "x")])))]) "demo" "r" =
        .ok (.dir (setEntryList [("package.json", .file (.json (.obj [("name", .str "x")])))]
          "package.json" (.file (.json pj4)))) ∧
      lookupJ pj4 "name" = some (.str "demo")) ∧
    (∃ pj2 cs', V1.updatePackageJson
        (.dir [("package.json", .file (.json (.obj [("name", .str "x")]))),
               ("package-custom.json", .file (.json (.obj
                [("py", .obj [("scripts", .obj [("dev", .str "d")])])])))]) "demo" "py" =
        .ok (.dir cs') ∧
      lookupEntry "package.json" cs' = some (.file (.json pj2)) ∧
      lookupJ pj2 "name" = some (.str "demo")) :=
  ⟨c8_name_field_equals_argument.1 _ "demo" "r" _ rfl,
   c8_name_field_equals_argument.2 _ "demo" "py" _ rfl (by rfl)⟩

/-- C9 (counterexample): a template directory `1-basic` whose metadata file
contains the valid JSON `null` parses successfully, yet the display name is
not derived: `packageJson.description` throws on `null`, the `catch` falls
back to the defaults, and the descriptor keeps the raw id `"1-basic"`
instead of `"Basic"`. -/
theorem c9_counterexample :
    getAvailableTemplates [("1-basic", .dir [("package.json", .file (.json .null))])] =
      [{ id := "1-basic", name := "1-basic", description := .str "Shiny-React template" }] ∧
    deriveName "1-basic" = "Basic" ∧
    ("1-basic" : String) ≠ "Basic" :=
  ⟨rfl, rfl, by decide⟩

/-- C9 (amended): for a discovered template directory whose metadata file
parses to a non-`null` value, the display name is the derivation from the
id (strip the segment before the first hyphen, title-case, join); when the
metadata is missing, unparseable, or parses to `null` (whose property read
throws into the same `catch`), the descriptor falls back to the default
name (the raw id) and description, and the entry is still discovered —
metadata corruption is never fatal. -/
theorem c9_display_name_and_fallback (entry : String) (t : FSTree) :
    (∀ pj, readTemplateMeta t = some pj → pj ≠ .null →
      (describeTemplate entry t).name = deriveName entry ∧
      (describeTemplate entry t).id = entry) ∧
    (readTemplateMeta t = none ∨ readTemplateMeta t = some .null →
      describeTemplate entry t =
        { id := entry, name := entry, description := .str "Shiny-React template" }) ∧
    (∀ cs : List (String × FSTree), (entry, t) ∈ cs → t.isDir = true →
      entry ∉ SKIP_PATHS →
      describeTemplate entry t ∈ getAvailableTemplates cs) := by
  refine ⟨fun pj hpj hnn => ?_, fun h => ?_, fun cs hmem hdir hskip => ?_⟩
  · simp only [describeTemplate, hpj]
    rw [jsMember_ok pj "description" hnn]
    exact ⟨rfl, rfl⟩
  · rcases h with h | h
    · simp only [describeTemplate, h]
    · simp only [describeTemplate, h]
      rfl
  · rw [getAvailableTemplates, List.mem_insertionSort]
    exact List.mem_map.mpr ⟨(entry, t),
      List.mem_filter.mpr ⟨hmem, by simp [hdir, hskip]⟩, rfl⟩

/-- Witness for C9 at concrete inputs, covering the derivation branch, the
fallback branch, and discovery membership. -/
theorem c9_display_name_and_fallback_witness :
    (describeTemplate "1-basic"
        (.dir [("package.json", .file (.json (.obj [("description", .str "d")])))])).name =
      deriveName "1-basic" ∧
    describeTemplate "2-x" (.dir []) =
      { id := "2-x", name := "2-x", description := .str "Shiny-React template" } ∧
    describeTemplate "1-basic"
        (.dir [("package.json", .file (.json (.obj [("description", .str "d")])))]) ∈
      getAvailableTemplates
        [("1-basic", .dir [("package.json", .file (.json (.obj [("description", .str "d")])))])] :=
  ⟨((c9_display_name_and_fallback "1-basic"
      (.dir [("package.json", .file (.json (.obj [("description", .str "d")])))])).1
      (.obj [("description", .str "d")]) rfl (by simp)).1,
   (c9_display_name_and_fallback "2-x" (.dir [])).2.1 (Or.inl rfl),
   (c9_display_name_and_fallback "1-basic"
      (.dir [("package.json", .file (.json (.obj [("description", .str "d")])))])).2.2
      _ (by simp) rfl (by decide)⟩

theorem describeTemplate_id (e : String) (t : FSTree) : (describeTemplate e t).id = e := by
  rw [describeTemplate]
  repeat' split
  all_goals rfl

instance : IsTotal TemplateInfo (fun a b => a.id ≤ b.id) :=
  ⟨fun a b => le_total a.id b.id⟩

instance : IsTrans TemplateInfo (fun a b => a.id ≤ b.id) :=
  ⟨fun _ _ _ h1 h2 => le_trans h1 h2⟩

instance : IsAntisymm TemplateInfo (fun a b => a.id < b.id) :=
  ⟨fun a _ h1 h2 => absurd (lt_trans h1 h2) (lt_irrefl a.id)⟩

/-- C5: template discovery returns descriptors sorted by id (the model of
`a.id.localeCompare(b.id)`, the lexicographic order on strings), and two
discovery runs over the same set of directory entries — a directory listing
has pairwise-distinct names — in any initial order return identical
sequences. -/
theorem c5_discovery_sorted_and_deterministic (cs cs' : List (String × FSTree))
    (hnd : (cs.map Prod.fst).Nodup) (hperm : cs'.Perm cs) :
    List.Sorted (fun a b : TemplateInfo => a.id ≤ b.id) (getAvailableTemplates cs) ∧
    getAvailableTemplates cs' = getAvailableTemplates cs := by
  have hfid : ∀ ds : List (String × FSTree),
      ((ds.filter (fun p => p.2.isDir && !SKIP_PATHS.contains p.1)).map
          (fun p => describeTemplate p.1 p.2)).map TemplateInfo.id =
        (ds.filter (fun p => p.2.isDir && !SKIP_PATHS.contains p.1)).map Prod.fst := by
    intro ds
    rw [List.map_map]
    exact List.map_congr_left (fun p _ => describeTemplate_id p.1 p.2)
  have hstrict : ∀ ds : List (String × FSTree), ((ds.map Prod.fst).Nodup) →
      List.Sorted (fun a b : TemplateInfo => a.id < b.id) (getAvailableTemplates ds) := by
    intro ds hds
    have hfnd : ((ds.filter (fun p => p.2.isDir && !SKIP_PATHS.contains p.1)).map
        Prod.fst).Nodup :=
      hds.sublist ((List.filter_sublist ds).map Prod.fst)
    have hMnd : (((ds.filter (fun p => p.2.isDir && !SKIP_PATHS.contains p.1)).map
        (fun p => describeTemplate p.1 p.2)).map TemplateInfo.id).Nodup := by
      rw [hfid ds]; exact hfnd
    have hSnd : ((getAvailableTemplates ds).map TemplateInfo.id).Nodup :=
      (((List.perm_insertionSort (fun a b : TemplateInfo => a.id ≤ b.id) _).map
        TemplateInfo.id).nodup_iff).mpr hMnd
    have hpw : (getAvailableTemplates ds).Pairwise (fun a b => a.id ≠ b.id) :=
      List.pairwise_map.mp hSnd
    have hsorted : List.Sorted (fun a b : TemplateInfo => a.id ≤ b.id)
        (getAvailableTemplates ds) :=
      List.sorted_insertionSort _ _
    exact (hsorted.and hpw).imp (fun h => lt_of_le_of_ne h.1 h.2)
  have hnd' : (cs'.map Prod.fst).Nodup := ((hperm.map Prod.fst).nodup_iff).mpr hnd
  have hMperm : getAvailableTemplates cs' |>.Perm (getAvailableTemplates cs) := by
    rw [getAvailableTemplates, getAvailableTemplates]
    exact (List.perm_insertionSort _ _).trans
      (((hperm.filter _).map _).trans (List.perm_insertionSort _ _).symm)
  refine ⟨List.sorted_insertionSort _ _, ?_⟩
  exact List.eq_of_perm_of_sorted hMperm (hstrict cs' hnd') (hstrict cs hnd)

/-- Witness for C5 at a concrete input: two permutations of the same
two-entry listing discover the same sorted sequence. -/
theorem c5_discovery_sorted_and_deterministic_witness :
    ([("2-b", FSTree.dir []), ("1-a", FSTree.dir [])].map Prod.fst).Nodup ∧
    List.Perm [("1-a", FSTree.dir []), ("2-b", FSTree.dir [])]
      [("2-b", FSTree.dir []), ("1-a", FSTree.dir [])] ∧
    (List.Sorted (fun a b : TemplateInfo => a.id ≤ b.id)
      (getAvailableTemplates [("2-b", FSTree.dir []), ("1-a", FSTree.dir [])]) ∧
     getAvailableTemplates [("1-a", FSTree.dir []), ("2-b", FSTree.dir [])] =
       getAvailableTemplates [("2-b", FSTree.dir []), ("1-a", FSTree.dir [])]) :=
  ⟨by simp, List.Perm.swap _ _ _,
   c5_discovery_sorted_and_deterministic _ _ (by simp) (List.Perm.swap _ _ _)⟩
